import Mathlib

/-!
Verification of the batching/transfer core (`src/timeline/transport.go`) and the
Solr service wrapper (`src/solar/solr_service.go`) of the gobol repository.

The Go drain loop (`transportCore.transferDataLoop`) is a single goroutine: it is
the only caller of `transport.TransferData`. We embed it as a deterministic
transition system over an explicit state.  Producer enqueues, `Close()` and timer
ticks are interleaved as the elements of a schedule list; the two
`go atomic.SwapUint32` statements (lines 127 and 165) spawn goroutines whose only
effect is one atomic store, and we model the schedule in which each such spawned
store completes before the flag is next accessed (this is the schedule under which
the loop's intended behaviour — and its bugs — manifest deterministically).
The structured log calls are modelled as emitted events so that claims about
logging and about which batches reach `TransferData` can be stated.
-/

namespace Timeline

/-- Observable events of one run of `transferDataLoop`: the log lines it emits and
the begin/end of each synchronous `transport.TransferData` invocation. -/
inductive Event (α : Type) where
  /-- line 123: "another data transfer is in progress, skipping..." -/
  | skipLog : Event α
  /-- line 152: "buffer is empty, no data will be send" -/
  | emptyLog : Event α
  /-- line 138: "breaking data transfer loop"; records the points drained into the
  local `points` slice during this final cycle (they are discarded on `break`). -/
  | breakLog (drained : List α) : Event α
  /-- line 158: the call `t.transport.TransferData(points)` begins. -/
  | transferStart (batch : List α) : Event α
  /-- the call at line 158 returns. -/
  | transferEnd : Event α
  /-- line 160: the error branch, `t.logger.Error(err.Error(), ...)`. -/
  | transferError : Event α
  /-- line 162: "batch of %d points were sent!". -/
  | transferSuccess (n : Nat) : Event α
  deriving DecidableEq

/-- State of one `transportCore` instance together with its point channel.
`dataTransferInProgress` is the `uint32` field (line 58), `queue` the buffered
contents of `pointChannel`, `closed` whether `Close()` has closed the channel,
`terminated` whether `transferDataLoop` has executed `break outterFor`, and
`panicked` whether a producer hit the Go panic of sending on a closed channel. -/
structure CoreState (α : Type) where
  dataTransferInProgress : Nat
  queue : List α
  closed : Bool
  terminated : Bool
  panicked : Bool
  deriving DecidableEq

/-- The Go zero value of a fresh `transportCore` with an empty channel. -/
def initState {α : Type} : CoreState α :=
  { dataTransferInProgress := 0, queue := [], closed := false
    terminated := false, panicked := false }

/-- The `innerLoop` select at lines 132-147: repeatedly perform a non-blocking
receive, appending each received point to `points`.  A receive on a non-empty
buffer succeeds (`ok = true`) even after the channel is closed; once the buffer
is empty, a closed channel yields `ok = false` (so the code breaks `outterFor`,
second component `true`), while an open empty channel makes the `default` case
fire (`break innerLoop`, second component `false`). -/
def drainLoop {α : Type} (points : List α) (queue : List α) (closed : Bool) :
    List α × Bool :=
  match queue with
  | p :: rest => drainLoop (points ++ [p]) rest closed
  | [] => (points, closed)

/-- One wake-up of the `outterFor` loop (lines 120-166) after the timer fires,
parameterised by whether `transport.TransferData` fails on a given batch.
Returns the post-state and the events emitted during the cycle.  The spawned
`atomic.SwapUint32` stores of lines 127 and 165 are modelled as completing in
place (see the file comment).  Note that the `numPoints == 0` path (line 153)
`continue`s without ever reaching the clearing swap of line 165. -/
def runCycle {α : Type} (senderFails : List α → Bool) (s : CoreState α) :
    CoreState α × List (Event α) :=
  if s.dataTransferInProgress > 0 then
    (s, [Event.skipLog])
  else if (drainLoop [] s.queue s.closed).2 then
    ({ s with dataTransferInProgress := 1, queue := [], terminated := true },
      [Event.breakLog (drainLoop [] s.queue s.closed).1])
  else if (drainLoop [] s.queue s.closed).1.length = 0 then
    ({ s with dataTransferInProgress := 1, queue := [] }, [Event.emptyLog])
  else
    ({ s with dataTransferInProgress := 0, queue := [] },
      [Event.transferStart (drainLoop [] s.queue s.closed).1, Event.transferEnd,
        if senderFails (drainLoop [] s.queue s.closed).1 then Event.transferError
        else Event.transferSuccess (drainLoop [] s.queue s.closed).1.length])

/-- One externally scheduled action against a core instance: a producer send on
the channel, the `Close()` call, or a firing of the `time.After` timer. -/
inductive Step (α : Type) where
  | enqueue (a : α) : Step α
  | close : Step α
  | tick : Step α
  deriving DecidableEq

/-- Effect of one scheduled action.  A send or a `close` on an already closed
channel panics in Go; a timer tick only drives the loop body while the loop is
still running (`break outterFor` stops both the loop and its timer waits). -/
def execStep {α : Type} (senderFails : List α → Bool) (s : CoreState α) :
    Step α → CoreState α × List (Event α)
  | Step.enqueue a =>
      if s.closed then ({ s with panicked := true }, [])
      else ({ s with queue := s.queue ++ [a] }, [])
  | Step.close =>
      if s.closed then ({ s with panicked := true }, [])
      else ({ s with closed := true }, [])
  | Step.tick =>
      if s.terminated || s.panicked then (s, [])
      else runCycle senderFails s

/-- Run a whole schedule of actions, accumulating the emitted events. -/
def run {α : Type} (senderFails : List α → Bool) (s : CoreState α) :
    List (Step α) → CoreState α × List (Event α)
  | [] => (s, [])
  | st :: rest =>
      let out := execStep senderFails s st
      let outs := run senderFails out.1 rest
      (outs.1, out.2 ++ outs.2)

/-- The batches handed to `transport.TransferData`, in call order. -/
def transfers {α : Type} : List (Event α) → List (List α)
  | [] => []
  | Event.transferStart b :: rest => b :: transfers rest
  | _ :: rest => transfers rest

/-- All items that reached `TransferData`, in order. -/
def batchedItems {α : Type} (evs : List (Event α)) : List α :=
  (transfers evs).flatten

/-- The items that were drained out of the channel by the final cycle and then
discarded by the `break outterFor` of line 139. -/
def discardedItems {α : Type} : List (Event α) → List α
  | [] => []
  | Event.breakLog drained :: rest => drained ++ discardedItems rest
  | _ :: rest => discardedItems rest

/-- The items the producers put on the channel, in order. -/
def enqueuedItems {α : Type} : List (Step α) → List α
  | [] => []
  | Step.enqueue a :: rest => a :: enqueuedItems rest
  | _ :: rest => enqueuedItems rest

/-- A well-formed schedule never sends or closes after the channel is closed
(doing so panics in Go); the `Bool` tracks whether a `close` was already seen. -/
def wfSched {α : Type} : Bool → List (Step α) → Bool
  | _, [] => true
  | c, Step.enqueue _ :: rest => !c && wfSched c rest
  | c, Step.close :: rest => !c && wfSched true rest
  | c, Step.tick :: rest => wfSched c rest

/-- The flag-protocol operations the source uses around the overlap check.  The
`compareAndSwap` constructor is the operation the specification requires; it is
listed so that its absence from the source's protocol can be stated. -/
inductive FlagOp where
  /-- line 122: `t.dataTransferInProgress > 0`, a plain (non-atomic) load. -/
  | plainLoad : FlagOp
  /-- lines 127/165: `go atomic.SwapUint32(&t.dataTransferInProgress, v)`, an
  atomic store of `v` performed by a freshly spawned goroutine. -/
  | spawnedAtomicSwap (v : Nat) : FlagOp
  /-- an `atomic.CompareAndSwapUint32(&flag, expected, v)`; nowhere in the source. -/
  | compareAndSwap (expected v : Nat) : FlagOp
  deriving DecidableEq

/-- Whether a flag operation is a compare-and-set. -/
def FlagOp.isCAS : FlagOp → Bool
  | FlagOp.compareAndSwap _ _ => true
  | _ => false

/-- The check-then-set sequence of one drain cycle in program order: the plain
read of line 122 followed by the spawned atomic swap of line 127. -/
def checkAndSetOps : List FlagOp :=
  [FlagOp.plainLoad, FlagOp.spawnedAtomicSwap 1]

/-- Automaton step deciding whether `transferStart`/`transferEnd` events are
properly bracketed: the `Bool` is "a transfer is in flight", `none` means a
second transfer started while one was in flight (or an unmatched end). -/
def flightStep {α : Type} : Option Bool → Event α → Option Bool
  | some false, Event.transferStart _ => some true
  | some true, Event.transferStart _ => none
  | some true, Event.transferEnd => some false
  | some false, Event.transferEnd => none
  | st, _ => st

/-- `DefaultTransportConfiguration` (lines 62-67).  `time.Duration` is a signed
64-bit count of nanoseconds; `d.Seconds() <= 0` holds exactly when `d ≤ 0`
(the float64 quotient `d / 1e9` is negative or zero exactly when `d` is, and no
positive nanosecond count rounds to `0.0`), so durations are embedded as `Int`. -/
structure DefaultTransportConfiguration where
  TransportBufferSize : Int
  BatchSendInterval : Int
  RequestTimeout : Int
  SerializerBufferSize : Int
  deriving DecidableEq

/-- `Validate` (lines 70-89): `none` models a `nil` error. -/
def DefaultTransportConfiguration.Validate (c : DefaultTransportConfiguration) :
    Option String :=
  if c.TransportBufferSize ≤ 0 then
    some ("invalid buffer size: " ++ toString c.TransportBufferSize)
  else if c.SerializerBufferSize ≤ 0 then
    some ("invalid serializer buffer size: " ++ toString c.SerializerBufferSize)
  else if c.BatchSendInterval ≤ 0 then
    some ("invalid batch send interval: " ++ toString c.BatchSendInterval)
  else if c.RequestTimeout ≤ 0 then
    some ("invalid request timeout interval: " ++ toString c.RequestTimeout)
  else
    none

end Timeline

namespace Solar

/-- `solr.Document` is a `map[string]interface{}`; its contents are opaque to
`SolrService`, so any type with decidable equality serves as the payload. -/
abbrev Document := List (String × String)

/-- The outbound interactions of `SolrService` with the Solr client library:
`newSolrInterface` is the `solr.NewSolrInterface` call inside
`getSolrInterface`, `add` is `si.Add`, `delete` is `si.Delete`; each records the
arguments (and whether the `commit=true` URL parameter was attached). -/
inductive SolrCall where
  | newSolrInterface (collection : String) : SolrCall
  | add (collection : String) (docs : List Document) (commit : Bool) : SolrCall
  | delete (collection : String) (query : String) (commit : Bool) : SolrCall
  deriving DecidableEq

/-- Responses of the external Solr client, one oracle per call site:
`newSIResult` returns `some msg` when `solr.NewSolrInterface` errors,
`addResult` likewise for `si.Add`, and `deleteResult` returns either an error or
the `solrResponse.Success` flag of `si.Delete`. -/
structure SolrEnv where
  newSIResult : String → Option String
  addResult : String → List Document → Bool → Option String
  deleteResult : String → String → Bool → Except String Bool

/-- Outcome of one `SolrService` method: the returned `error` (`Except.ok ()`
models a `nil` error), the updated `solrInterfaceCache` contents, and the trace
of external Solr calls issued. -/
abbrev Outcome := Except String Unit × List String × List SolrCall

/-- `getSolrInterface` (lines 52-69): return the cached interface for the
collection if present; otherwise call `solr.NewSolrInterface`, caching it only
on success. -/
def getSolrInterface (env : SolrEnv) (cache : List String) (collection : String) :
    Outcome :=
  if collection ∈ cache then (Except.ok (), cache, [])
  else
    match env.newSIResult collection with
    | some err => (Except.error err, cache, [SolrCall.newSolrInterface collection])
    | none => (Except.ok (), collection :: cache, [SolrCall.newSolrInterface collection])

/-- `AddDocument` (lines 79-106): `doc = none` models the Go `nil` pointer. -/
def AddDocument (env : SolrEnv) (cache : List String) (collection : String)
    (commit : Bool) (doc : Option Document) : Outcome :=
  match doc with
  | none => (Except.error "document is null", cache, [])
  | some d =>
    match getSolrInterface env cache collection with
    | (Except.error e, cache2, calls) => (Except.error e, cache2, calls)
    | (Except.ok _, cache2, calls) =>
      let calls2 := calls ++ [SolrCall.add collection [d] commit]
      match env.addResult collection [d] commit with
      | some e => (Except.error e, cache2, calls2)
      | none => (Except.ok (), cache2, calls2)

/-- `AddDocuments` (lines 109-136): a `nil` variadic slice and an empty one are
both the empty list. -/
def AddDocuments (env : SolrEnv) (cache : List String) (collection : String)
    (commit : Bool) (docs : List Document) : Outcome :=
  if docs.length = 0 then (Except.error "no documents to add", cache, [])
  else
    match getSolrInterface env cache collection with
    | (Except.error e, cache2, calls) => (Except.error e, cache2, calls)
    | (Except.ok _, cache2, calls) =>
      let calls2 := calls ++ [SolrCall.add collection docs commit]
      match env.addResult collection docs commit with
      | some e => (Except.error e, cache2, calls2)
      | none => (Except.ok (), cache2, calls2)

/-- `DeleteDocumentByQuery` (lines 158-192): issues `si.Delete` with the map
`{"query": query}`; a response with `Success == false` is turned into an error. -/
def DeleteDocumentByQuery (env : SolrEnv) (cache : List String) (collection : String)
    (commit : Bool) (query : String) : Outcome :=
  if query = "" then
    (Except.error "query not informed, no document will be deleted", cache, [])
  else
    match getSolrInterface env cache collection with
    | (Except.error e, cache2, calls) => (Except.error e, cache2, calls)
    | (Except.ok _, cache2, calls) =>
      let calls2 := calls ++ [SolrCall.delete collection query commit]
      match env.deleteResult collection query commit with
      | Except.error e => (Except.error e, cache2, calls2)
      | Except.ok true => (Except.ok (), cache2, calls2)
      | Except.ok false => (Except.error "error deleting documents", cache2, calls2)

/-- `DeleteDocumentByID` (lines 139-155): builds `fmt.Sprintf("id:%s", id)` and
delegates to `DeleteDocumentByQuery`, forwarding its error. -/
def DeleteDocumentByID (env : SolrEnv) (cache : List String) (collection : String)
    (commit : Bool) (id : String) : Outcome :=
  if id = "" then
    (Except.error "document id not informed, no document will be deleted", cache, [])
  else
    match DeleteDocumentByQuery env cache collection commit ("id:" ++ id) with
    | (Except.error e, cache2, calls) => (Except.error e, cache2, calls)
    | (Except.ok _, cache2, calls) => (Except.ok (), cache2, calls)

end Solar

namespace Timeline

theorem drainLoop_eq {α : Type} :
    ∀ (acc q : List α) (c : Bool), drainLoop acc q c = (acc ++ q, c)
  | _, [], _ => by simp [drainLoop]
  | acc, p :: rest, c => by
      rw [drainLoop, drainLoop_eq (acc ++ [p]) rest c]
      simp

/-- `runCycle` with the inner drain evaluated: the snapshot is the whole queue. -/
theorem runCycle_eq {α : Type} (sf : List α → Bool) (s : CoreState α) :
    runCycle sf s =
      if s.dataTransferInProgress > 0 then (s, [Event.skipLog])
      else if s.closed then
        ({ s with dataTransferInProgress := 1, queue := [], terminated := true },
          [Event.breakLog s.queue])
      else if s.queue.length = 0 then
        ({ s with dataTransferInProgress := 1, queue := [] }, [Event.emptyLog])
      else
        ({ s with dataTransferInProgress := 0, queue := [] },
          [Event.transferStart s.queue, Event.transferEnd,
            if sf s.queue then Event.transferError
            else Event.transferSuccess s.queue.length]) := by
  simp only [runCycle, drainLoop_eq, List.nil_append]

@[simp]
theorem transfers_append {α : Type} :
    ∀ (e1 e2 : List (Event α)), transfers (e1 ++ e2) = transfers e1 ++ transfers e2
  | [], _ => rfl
  | ev :: rest, e2 => by
      cases ev <;> simp [transfers, transfers_append rest e2]

@[simp]
theorem discardedItems_append {α : Type} :
    ∀ (e1 e2 : List (Event α)),
      discardedItems (e1 ++ e2) = discardedItems e1 ++ discardedItems e2
  | [], _ => rfl
  | ev :: rest, e2 => by
      cases ev <;> simp [discardedItems, discardedItems_append rest e2]

@[simp]
theorem batchedItems_append {α : Type} (e1 e2 : List (Event α)) :
    batchedItems (e1 ++ e2) = batchedItems e1 ++ batchedItems e2 := by
  simp [batchedItems]

theorem wfSched_closed_no_enqueue {α : Type} :
    ∀ (sched : List (Step α)), wfSched true sched = true → enqueuedItems sched = []
  | [], _ => rfl
  | Step.enqueue _ :: _, h => by simp [wfSched] at h
  | Step.close :: _, h => by simp [wfSched] at h
  | Step.tick :: rest, h => by
      simp only [enqueuedItems]
      exact wfSched_closed_no_enqueue rest (by simpa [wfSched] using h)

/-- Once `break outterFor` has run, nothing is ever logged or transferred again:
the loop goroutine is gone, producer sends only mutate the channel buffer, and a
late `Close()` merely panics the closing goroutine. -/
theorem run_terminated_silent {α : Type} (sf : List α → Bool) :
    ∀ (sched : List (Step α)) (s : CoreState α),
      s.terminated = true → (run sf s sched).2 = []
  | [], _, _ => rfl
  | Step.enqueue a :: rest, s, h => by
      simp only [run, execStep]
      split
      · simpa using run_terminated_silent sf rest _ (by simpa using h)
      · simpa using run_terminated_silent sf rest _ (by simpa using h)
  | Step.close :: rest, s, h => by
      simp only [run, execStep]
      split
      · simpa using run_terminated_silent sf rest _ (by simpa using h)
      · simpa using run_terminated_silent sf rest _ (by simpa using h)
  | Step.tick :: rest, s, h => by
      simp [run, execStep, h, run_terminated_silent sf rest s h]

/-- Conservation of items: what reached `TransferData`, plus what the final
`break` discarded, plus what is still buffered, is exactly what was enqueued,
in order.  Holds for any well-formed schedule against any state whose
`terminated` flag is consistent (the loop only terminates with a drained queue
on a closed channel). -/
theorem run_conservation {α : Type} (sf : List α → Bool) :
    ∀ (sched : List (Step α)) (s : CoreState α),
      wfSched s.closed sched = true →
      (s.terminated = true → s.queue = [] ∧ s.closed = true) →
      batchedItems (run sf s sched).2 ++ discardedItems (run sf s sched).2
          ++ (run sf s sched).1.queue
        = s.queue ++ enqueuedItems sched
  | [], s, _, _ => by
      simp [run, batchedItems, discardedItems, transfers, enqueuedItems]
  | Step.enqueue a :: rest, s, hwf, hterm => by
      rw [wfSched] at hwf
      simp only [Bool.and_eq_true, Bool.not_eq_true'] at hwf
      obtain ⟨hc, hwf⟩ := hwf
      have hterm' : s.terminated = false := by
        by_contra h
        simp only [Bool.not_eq_false] at h
        exact absurd (hterm h).2 (by simp [hc])
      have IH := run_conservation sf rest { s with queue := s.queue ++ [a] }
        (by simpa [hc] using hwf) (by simp [hterm'])
      simp only [run, execStep, hc, Bool.false_eq_true, if_false, List.nil_append,
        enqueuedItems, List.append_assoc, List.singleton_append,
        List.cons_append, List.nil_append] at IH ⊢
      exact IH
  | Step.close :: rest, s, hwf, hterm => by
      rw [wfSched] at hwf
      simp only [Bool.and_eq_true, Bool.not_eq_true'] at hwf
      obtain ⟨hc, hwf⟩ := hwf
      have hterm' : s.terminated = false := by
        by_contra h
        simp only [Bool.not_eq_false] at h
        exact absurd (hterm h).2 (by simp [hc])
      have IH := run_conservation sf rest { s with closed := true }
        (by simpa using hwf) (by simp [hterm'])
      simp only [run, execStep, hc, Bool.false_eq_true, if_false, List.nil_append,
        enqueuedItems, List.append_assoc] at IH ⊢
      exact IH
  | Step.tick :: rest, s, hwf, hterm => by
      rw [wfSched] at hwf
      by_cases hT : s.terminated = true
      · have IH := run_conservation sf rest s hwf hterm
        simp only [run, execStep, hT, Bool.true_or, if_true, List.nil_append,
          enqueuedItems, List.append_assoc] at IH ⊢
        exact IH
      · replace hT : s.terminated = false := by simpa using hT
        by_cases hP : s.panicked = true
        · have IH := run_conservation sf rest s hwf hterm
          simp only [run, execStep, hT, hP, Bool.false_or, if_true, List.nil_append,
            enqueuedItems, List.append_assoc] at IH ⊢
          exact IH
        · replace hP : s.panicked = false := by simpa using hP
          by_cases hflag : s.dataTransferInProgress > 0
          · have IH := run_conservation sf rest s hwf hterm
            simp only [run, execStep, runCycle_eq, hT, hP, hflag, Bool.or_self,
              Bool.false_eq_true, if_false, if_true, List.nil_append,
              enqueuedItems, batchedItems, discardedItems, transfers,
              List.append_assoc] at IH ⊢
            exact IH
          · have hflag0 : s.dataTransferInProgress = 0 := Nat.eq_zero_of_not_pos hflag
            by_cases hc : s.closed = true
            · -- the closed channel is observed: drain, discard, break
              have henq : enqueuedItems rest = [] :=
                wfSched_closed_no_enqueue rest (by rwa [hc] at hwf)
              have IH := run_conservation sf rest
                { s with dataTransferInProgress := 1, queue := [], terminated := true }
                (by simpa [hc] using hwf) (by simp [hc])
              simp only [hc, hP, List.nil_append, henq, List.append_nil,
                List.append_assoc, batchedItems] at IH
              obtain ⟨h1, h23⟩ := List.append_eq_nil.mp IH
              obtain ⟨h2, h3⟩ := List.append_eq_nil.mp h23
              simp only [run, execStep, runCycle_eq, hT, hP, hc, hflag0, Bool.or_self,
                Bool.false_eq_true, if_false, if_true, lt_self_iff_false,
                List.nil_append, enqueuedItems, batchedItems, discardedItems,
                transfers, List.append_assoc]
              simp [h1, h2, h3, henq, discardedItems, transfers]
            · replace hc : s.closed = false := by simpa using hc
              by_cases hq : s.queue.length = 0
              · have hqnil : s.queue = [] := List.length_eq_zero.mp hq
                have IH := run_conservation sf rest
                  { s with dataTransferInProgress := 1, queue := [] }
                  (by simpa using hwf) (by simp [hT])
                simp only [run, execStep, runCycle_eq, hT, hP, hc, hflag0, hqnil,
                  Bool.or_self, Bool.false_eq_true, if_false, if_true,
                  lt_self_iff_false, List.length_nil, List.nil_append,
                  enqueuedItems, batchedItems, discardedItems, transfers,
                  List.append_assoc] at IH ⊢
                exact IH
              · have IH := run_conservation sf rest
                  { s with dataTransferInProgress := 0, queue := [] }
                  (by simpa using hwf) (by simp [hT])
                simp only [hc, hT, hP, List.nil_append, List.append_assoc,
                  batchedItems] at IH
                cases hsf : sf s.queue <;>
                  simp only [run, execStep, runCycle_eq, hT, hP, hc, hflag0, hq, hsf,
                    Bool.or_self, Bool.false_eq_true, if_false, if_true,
                    lt_self_iff_false, List.nil_append, enqueuedItems,
                    batchedItems, discardedItems, transfers, List.flatten,
                    List.append_assoc] <;>
                  simp [IH]

theorem runCycle_flight {α : Type} (sf : List α → Bool) (s : CoreState α) :
    ((runCycle sf s).2.foldl flightStep (some false)) = some false := by
  rw [runCycle_eq]
  by_cases hflag : s.dataTransferInProgress > 0
  · simp [hflag, flightStep]
  · simp only [hflag, if_false]
    by_cases hc : s.closed = true
    · simp [hc, flightStep]
    · replace hc : s.closed = false := by simpa using hc
      simp only [hc, Bool.false_eq_true, if_false]
      by_cases hq : s.queue.length = 0
      · simp [hq, flightStep]
      · simp only [hq, if_false]
        cases hsf : sf s.queue <;> simp [hsf, flightStep]

theorem execStep_flight {α : Type} (sf : List α → Bool) (s : CoreState α)
    (st : Step α) :
    ((execStep sf s st).2.foldl flightStep (some false)) = some false := by
  cases st
  · simp only [execStep]
    split <;> rfl
  · simp only [execStep]
    split <;> rfl
  · simp only [execStep]
    split
    · rfl
    · exact runCycle_flight sf s

/-- At no point of any run is a second `TransferData` call started while one is
still executing: the start/end events are always properly bracketed. -/
theorem run_flight {α : Type} (sf : List α → Bool) :
    ∀ (sched : List (Step α)) (s : CoreState α),
      ((run sf s sched).2.foldl flightStep (some false)) = some false
  | [], _ => rfl
  | st :: rest, s => by
      simp only [run, List.foldl_append]
      rw [execStep_flight sf s st]
      exact run_flight sf rest _

theorem runCycle_oracle {α : Type} (sf sf' : List α → Bool) (s : CoreState α) :
    (runCycle sf s).1 = (runCycle sf' s).1
    ∧ transfers (runCycle sf s).2 = transfers (runCycle sf' s).2 := by
  rw [runCycle_eq, runCycle_eq]
  by_cases hflag : s.dataTransferInProgress > 0
  · simp [hflag]
  · simp only [hflag, if_false]
    by_cases hc : s.closed = true
    · simp [hc]
    · replace hc : s.closed = false := by simpa using hc
      simp only [hc, Bool.false_eq_true, if_false]
      by_cases hq : s.queue.length = 0
      · simp [hq]
      · simp only [hq, if_false]
        refine ⟨by trivial, ?_⟩
        cases hsf : sf s.queue <;> cases hsf' : sf' s.queue <;> simp [transfers]

theorem execStep_oracle {α : Type} (sf sf' : List α → Bool) (s : CoreState α)
    (st : Step α) :
    (execStep sf s st).1 = (execStep sf' s st).1
    ∧ transfers (execStep sf s st).2 = transfers (execStep sf' s st).2 := by
  cases st
  · exact ⟨rfl, rfl⟩
  · exact ⟨rfl, rfl⟩
  · simp only [execStep]
    split
    · exact ⟨rfl, rfl⟩
    · exact runCycle_oracle sf sf' s

/-- The sender's success or failure influences nothing but the log line: the
post-state and the sequence of batches handed over are identical under any two
sender oracles. -/
theorem run_oracle {α : Type} (sf sf' : List α → Bool) :
    ∀ (sched : List (Step α)) (s : CoreState α),
      (run sf s sched).1 = (run sf' s sched).1
      ∧ transfers (run sf s sched).2 = transfers (run sf' s sched).2
  | [], _ => ⟨rfl, rfl⟩
  | st :: rest, s => by
      obtain ⟨h1, h2⟩ := execStep_oracle sf sf' s st
      constructor
      · simp only [run]
        rw [h1]
        exact (run_oracle sf sf' rest _).1
      · simp only [run, transfers_append]
        rw [h2, h1, (run_oracle sf sf' rest _).2]

theorem runCycle_transfers_nonempty {α : Type} (sf : List α → Bool)
    (s : CoreState α) (b : List α) (hb : b ∈ transfers (runCycle sf s).2) :
    b ≠ [] := by
  rw [runCycle_eq] at hb
  by_cases hflag : s.dataTransferInProgress > 0
  · simp [hflag, transfers] at hb
  · simp only [hflag, if_false] at hb
    by_cases hc : s.closed = true
    · simp [hc, transfers] at hb
    · replace hc : s.closed = false := by simpa using hc
      simp only [hc, Bool.false_eq_true, if_false] at hb
      by_cases hq : s.queue.length = 0
      · simp [hq, transfers] at hb
      · simp only [hq, if_false] at hb
        have hbq : b = s.queue := by
          cases hsf : sf s.queue <;> simp [hsf, transfers] at hb <;> exact hb
        subst hbq
        intro h
        exact hq (by simp [h])

/-- Every batch that reaches `TransferData` during any run is non-empty. -/
theorem run_transfers_nonempty {α : Type} (sf : List α → Bool) :
    ∀ (sched : List (Step α)) (s : CoreState α) (b : List α),
      b ∈ transfers (run sf s sched).2 → b ≠ []
  | [], _, _, hb => by simp [run, transfers] at hb
  | st :: rest, s, b, hb => by
      simp only [run, transfers_append, List.mem_append] at hb
      rcases hb with hb | hb
      · cases st
        case enqueue a =>
          simp only [execStep] at hb
          split at hb <;> simp [transfers] at hb
        case close =>
          simp only [execStep] at hb
          split at hb <;> simp [transfers] at hb
        case tick =>
          simp only [execStep] at hb
          split at hb
          · simp [transfers] at hb
          · exact runCycle_transfers_nonempty sf s b hb
      · exact run_transfers_nonempty sf rest _ b hb

/-- C1, counterexample to the claim as stated: the in-flight check and its
setting are NOT performed as a single atomic compare-and-set.  In the source the
protocol of one cycle is the plain load of line 122 followed by the atomic swap
of line 127 spawned in a fresh goroutine: two separate operations, neither of
which is a compare-and-set. -/
theorem C1_counterexample :
    checkAndSetOps = [FlagOp.plainLoad, FlagOp.spawnedAtomicSwap 1]
    ∧ checkAndSetOps.all (fun op => ! op.isCAS) = true := by
  decide

/-- C1 (amended): no two `TransferData` invocations are ever in flight
concurrently — the sender is invoked synchronously by the single drain-loop
goroutine, so in the event trace of every run the `transferStart`/`transferEnd`
brackets are properly nested — but this comes from the loop being sequential,
not from the flag protocol, which is a separate plain read followed by a
separately spawned atomic swap and contains no compare-and-set. -/
theorem C1_no_overlapping_transfers {α : Type} :
    (∀ (sf : List α → Bool) (sched : List (Step α)),
        ((run sf initState sched).2.foldl flightStep (some false)) = some false)
    ∧ checkAndSetOps.all (fun op => ! op.isCAS) = true :=
  ⟨fun sf sched => run_flight sf sched initState, by decide⟩

/-- C2, exhibiting the bug: the flag is `0` at construction, but the cycle whose
drained batch is empty sets the flag (line 127) and `continue`s at line 153
without ever clearing it, so every subsequent cycle sees the flag set and is
skipped: after one empty cycle the item enqueued later is never transferred. -/
theorem C2_flag_stuck_after_empty_cycle :
    (initState (α := Nat)).dataTransferInProgress = 0
    ∧ (run (fun _ => false) (initState (α := Nat))
          [Step.tick, Step.enqueue 5, Step.tick, Step.tick, Step.tick]).2
        = [Event.emptyLog, Event.skipLog, Event.skipLog, Event.skipLog]
    ∧ (run (fun _ => false) (initState (α := Nat))
          [Step.tick, Step.enqueue 5, Step.tick, Step.tick, Step.tick]).1.dataTransferInProgress
        = 1
    ∧ (run (fun _ => false) (initState (α := Nat))
          [Step.tick, Step.enqueue 5, Step.tick, Step.tick, Step.tick]).1.queue = [5]
    ∧ transfers (run (fun _ => false) (initState (α := Nat))
          [Step.tick, Step.enqueue 5, Step.tick, Step.tick, Step.tick]).2 = [] := by
  decide

/-- C3, counterexample to the claim as stated: for the enqueue-then-close
schedule `[enqueue 0, close, tick, tick]` with a never-failing sender, the item
`0` is enqueued, the loop terminates with an empty queue, yet no batch at all is
passed to `TransferData` — the item appears in zero batches, not exactly one. -/
theorem C3_counterexample :
    enqueuedItems [Step.enqueue (0 : Nat), Step.close, Step.tick, Step.tick] = [0]
    ∧ transfers (run (fun _ => false) initState
          [Step.enqueue (0 : Nat), Step.close, Step.tick, Step.tick]).2 = []
    ∧ (run (fun _ => false) initState
          [Step.enqueue (0 : Nat), Step.close, Step.tick, Step.tick]).1.queue = []
    ∧ (run (fun _ => false) initState
          [Step.enqueue (0 : Nat), Step.close, Step.tick, Step.tick]).1.terminated
        = true := by
  decide

/-- C3 (amended): under any well-formed schedule (no enqueue after close) and
any sender, the batches handed to `TransferData`, followed by the items the
final `break` drained and discarded, followed by the items still buffered, are
exactly the enqueued items in order — so no item is ever duplicated or
reordered, and an item can fail to be batched only by remaining buffered or by
being discarded in the close-observing cycle. -/
theorem C3_no_duplication_no_reorder {α : Type} (sf : List α → Bool)
    (sched : List (Step α)) (hwf : wfSched false sched = true) :
    batchedItems (run sf initState sched).2
      ++ discardedItems (run sf initState sched).2
      ++ (run sf initState sched).1.queue
    = enqueuedItems sched := by
  have h := run_conservation sf sched initState (by simpa [initState] using hwf)
    (by simp [initState])
  simpa [initState] using h

theorem C3_no_duplication_no_reorder_witness :
    wfSched false
        [Step.enqueue (1 : Nat), Step.tick, Step.enqueue 2, Step.close, Step.tick]
      = true
    ∧ batchedItems (run (fun _ => false) initState
          [Step.enqueue (1 : Nat), Step.tick, Step.enqueue 2, Step.close, Step.tick]).2
        ++ discardedItems (run (fun _ => false) initState
          [Step.enqueue (1 : Nat), Step.tick, Step.enqueue 2, Step.close, Step.tick]).2
        ++ (run (fun _ => false) initState
          [Step.enqueue (1 : Nat), Step.tick, Step.enqueue 2, Step.close, Step.tick]).1.queue
      = enqueuedItems
          [Step.enqueue (1 : Nat), Step.tick, Step.enqueue 2, Step.close, Step.tick] :=
  ⟨by decide, C3_no_duplication_no_reorder (fun _ => false) _ (by decide)⟩

/-- C4, counterexample to the claim as stated: with items `[1, 2]` still queued
at `close()`, the next cycle drains them and terminates, but the drained batch
is discarded at `break outterFor` — it is never handed to `TransferData`,
contrary to the claim that a non-empty remainder is transferred. -/
theorem C4_counterexample :
    (run (fun _ => false) initState
          [Step.enqueue (1 : Nat), Step.enqueue 2, Step.close, Step.tick]).1.terminated
        = true
    ∧ (run (fun _ => false) initState
          [Step.enqueue (1 : Nat), Step.enqueue 2, Step.close, Step.tick]).2
        = [Event.breakLog [1, 2]]
    ∧ transfers (run (fun _ => false) initState
          [Step.enqueue (1 : Nat), Step.enqueue 2, Step.close, Step.tick]).2 = [] := by
  decide

/-- C4 (amended): after `close()`, the first cycle that passes the in-flight
check drains the remaining items exactly once and terminates the loop
permanently — no event, in particular no `TransferData` call, ever happens
afterwards — but the drained remainder is discarded without being handed to
`TransferData`. -/
theorem C4_final_drain_terminates {α : Type} (sf : List α → Bool)
    (s : CoreState α) (hc : s.closed = true)
    (hflag : s.dataTransferInProgress = 0) :
    (runCycle sf s).1.terminated = true
    ∧ (runCycle sf s).2 = [Event.breakLog s.queue]
    ∧ transfers (runCycle sf s).2 = []
    ∧ ∀ (sched : List (Step α)), (run sf (runCycle sf s).1 sched).2 = [] := by
  have h1 : runCycle sf s
      = ({ s with dataTransferInProgress := 1, queue := [], terminated := true },
          [Event.breakLog s.queue]) := by
    rw [runCycle_eq]
    simp [hflag, hc]
  refine ⟨by simp [h1], by simp [h1], by simp [h1, transfers], ?_⟩
  intro sched
  apply run_terminated_silent
  simp [h1]

theorem C4_final_drain_terminates_witness :
    (runCycle (fun _ => false) (⟨0, [7, 8], true, false, false⟩ : CoreState Nat)).1.terminated
        = true
    ∧ (runCycle (fun _ => false) (⟨0, [7, 8], true, false, false⟩ : CoreState Nat)).2
        = [Event.breakLog [7, 8]]
    ∧ transfers (runCycle (fun _ => false) (⟨0, [7, 8], true, false, false⟩ : CoreState Nat)).2
        = []
    ∧ (run (fun _ => false)
          (runCycle (fun _ => false) (⟨0, [7, 8], true, false, false⟩ : CoreState Nat)).1
          [Step.tick, Step.tick]).2 = [] := by
  obtain ⟨h1, h2, h3, h4⟩ := C4_final_drain_terminates (fun _ => false)
    (⟨0, [7, 8], true, false, false⟩ : CoreState Nat) rfl rfl
  exact ⟨h1, h2, h3, h4 [Step.tick, Step.tick]⟩

/-- C5: a drain cycle whose snapshot is empty emits no `TransferData` call, and
more generally no batch of size zero is ever transmitted during any run. -/
theorem C5_empty_drain_no_transfer {α : Type} :
    (∀ (sf : List α → Bool) (s : CoreState α), s.queue = [] →
        transfers (runCycle sf s).2 = [])
    ∧ ∀ (sf : List α → Bool) (sched : List (Step α)) (b : List α),
        b ∈ transfers (run sf initState sched).2 → b ≠ [] := by
  constructor
  · intro sf s hq
    rw [runCycle_eq]
    by_cases hflag : s.dataTransferInProgress > 0
    · simp [hflag, transfers]
    · by_cases hc : s.closed = true <;> simp [hflag, hc, hq, transfers]
  · intro sf sched b hb
    exact run_transfers_nonempty sf sched initState b hb

theorem C5_empty_drain_no_transfer_witness :
    transfers (runCycle (fun _ => false)
          (⟨0, [], false, false, false⟩ : CoreState Nat)).2 = []
    ∧ ([1] : List Nat) ≠ [] :=
  ⟨C5_empty_drain_no_transfer.1 (fun _ => false) _ rfl,
   C5_empty_drain_no_transfer.2 (fun _ => false) [Step.enqueue 1, Step.tick] [1]
     (by decide)⟩

/-- C6: a sender error changes nothing but the log line — under any two sender
oracles the post-state and the batch sequence of a whole run coincide (no retry,
no re-enqueue, queue evolution identical) — and the erroring cycle itself logs
`transferError`, leaves the queue drained, and clears the in-flight flag. -/
theorem C6_transfer_error_only_logged {α : Type} :
    (∀ (sf sf' : List α → Bool) (s : CoreState α) (sched : List (Step α)),
        (run sf s sched).1 = (run sf' s sched).1
        ∧ transfers (run sf s sched).2 = transfers (run sf' s sched).2)
    ∧ ∀ (sf : List α → Bool) (s : CoreState α),
        s.dataTransferInProgress = 0 → s.closed = false → s.queue ≠ [] →
        sf s.queue = true →
        Event.transferError ∈ (runCycle sf s).2
        ∧ (runCycle sf s).1.queue = []
        ∧ (runCycle sf s).1.dataTransferInProgress = 0 := by
  constructor
  · intro sf sf' s sched
    exact run_oracle sf sf' sched s
  · intro sf s hflag hc hq hsf
    rw [runCycle_eq]
    have hq0 : ¬ s.queue.length = 0 := by simpa using hq
    simp [hflag, hc, hq0, hsf]

theorem C6_transfer_error_only_logged_witness :
    Event.transferError ∈ (runCycle (fun _ => true)
          (⟨0, [4], false, false, false⟩ : CoreState Nat)).2
    ∧ (runCycle (fun _ => true)
          (⟨0, [4], false, false, false⟩ : CoreState Nat)).1.queue = []
    ∧ (runCycle (fun _ => true)
          (⟨0, [4], false, false, false⟩ : CoreState Nat)).1.dataTransferInProgress
        = 0 :=
  C6_transfer_error_only_logged.2 (fun _ => true) _ rfl rfl (by decide) rfl

/-- C7: the batch passed to `TransferData` in a transferring cycle is exactly
the sequence of items the inner loop dequeued during that cycle, and that
sequence is the queue snapshot in insertion order — nothing reordered, dropped
or duplicated. -/
theorem C7_batch_is_dequeue_sequence {α : Type} (sf : List α → Bool)
    (s : CoreState α) (hflag : s.dataTransferInProgress = 0)
    (hc : s.closed = false) (hq : s.queue ≠ []) :
    transfers (runCycle sf s).2 = [(drainLoop [] s.queue s.closed).1]
    ∧ (drainLoop [] s.queue s.closed).1 = s.queue := by
  have hd : (drainLoop [] s.queue s.closed).1 = s.queue := by simp [drainLoop_eq]
  refine ⟨?_, hd⟩
  rw [runCycle_eq]
  have hq0 : ¬ s.queue.length = 0 := by simpa using hq
  cases hsf : sf s.queue <;> simp [hflag, hc, hq0, hsf, transfers, drainLoop_eq]

theorem C7_batch_is_dequeue_sequence_witness :
    transfers (runCycle (fun _ => false)
          (⟨0, [1, 2, 3], false, false, false⟩ : CoreState Nat)).2
      = [(drainLoop [] ([1, 2, 3] : List Nat) false).1]
    ∧ (drainLoop [] ([1, 2, 3] : List Nat) false).1 = [1, 2, 3] :=
  C7_batch_is_dequeue_sequence (fun _ => false)
    (⟨0, [1, 2, 3], false, false, false⟩ : CoreState Nat) rfl rfl (by decide)

/-- C8: `Validate` returns a nil error exactly when all four configuration
fields are positive; any non-positive field yields a non-nil error (this is a
pure check on the configuration value, involving no started transport). -/
theorem C8_validate_iff_positive (c : DefaultTransportConfiguration) :
    c.Validate = none ↔
      (0 < c.TransportBufferSize ∧ 0 < c.SerializerBufferSize
        ∧ 0 < c.BatchSendInterval ∧ 0 < c.RequestTimeout) := by
  unfold DefaultTransportConfiguration.Validate
  by_cases h1 : c.TransportBufferSize ≤ 0 <;>
    by_cases h2 : c.SerializerBufferSize ≤ 0 <;>
      by_cases h3 : c.BatchSendInterval ≤ 0 <;>
        by_cases h4 : c.RequestTimeout ≤ 0 <;>
          simp [h1, h2, h3, h4]
  all_goals omega

end Timeline

namespace Solar

/-- C9: each public mutation rejects its missing required argument with a
non-nil error, with the interface cache untouched and no external Solr call
issued — `AddDocument` on a nil document, `AddDocuments` on a nil/empty slice,
`DeleteDocumentByID` on an empty id, `DeleteDocumentByQuery` on an empty
query. -/
theorem C9_missing_argument_rejected_early (env : SolrEnv) (cache : List String)
    (collection : String) (commit : Bool) :
    AddDocument env cache collection commit none
        = (Except.error "document is null", cache, [])
    ∧ AddDocuments env cache collection commit []
        = (Except.error "no documents to add", cache, [])
    ∧ DeleteDocumentByID env cache collection commit ""
        = (Except.error "document id not informed, no document will be deleted",
            cache, [])
    ∧ DeleteDocumentByQuery env cache collection commit ""
        = (Except.error "query not informed, no document will be deleted",
            cache, []) := by
  refine ⟨rfl, rfl, ?_, ?_⟩ <;> simp [DeleteDocumentByID, DeleteDocumentByQuery]

/-- C10: for any non-empty id, `DeleteDocumentByID` returns exactly the result
of `DeleteDocumentByQuery` on the query `"id:" ++ id`, against any environment,
cache, collection and commit flag. -/
theorem C10_delete_by_id_eq_query (env : SolrEnv) (cache : List String)
    (collection : String) (commit : Bool) (id : String) (h : id ≠ "") :
    DeleteDocumentByID env cache collection commit id
      = DeleteDocumentByQuery env cache collection commit ("id:" ++ id) := by
  unfold DeleteDocumentByID
  rw [if_neg h]
  rcases hq : DeleteDocumentByQuery env cache collection commit ("id:" ++ id)
    with ⟨e, cache2, calls⟩
  cases e <;> rfl

theorem C10_delete_by_id_eq_query_witness :
    ("x" : String) ≠ ""
    ∧ DeleteDocumentByID
          { newSIResult := fun _ => none, addResult := fun _ _ _ => none,
            deleteResult := fun _ _ _ => Except.ok true }
          [] "col" true "x"
        = DeleteDocumentByQuery
          { newSIResult := fun _ => none, addResult := fun _ _ _ => none,
            deleteResult := fun _ _ _ => Except.ok true }
          [] "col" true ("id:" ++ "x") :=
  ⟨by decide,
   C10_delete_by_id_eq_query
     { newSIResult := fun _ => none, addResult := fun _ _ _ => none,
       deleteResult := fun _ _ _ => Except.ok true }
     [] "col" true "x" (by decide)⟩

end Solar
